import Mathlib

/-!
Verification of `.github/actions/health-score/compute_score.py`, the
repository health-score calculator: six metric collectors each produce a
value in [0,1] plus evidence, and `combine` turns them into a final score
out of 100 via a fixed weight table.

The embedding is shallow: Python floats become rationals (ℚ), the file
system and external tools (coverage XML, vulture, bandit, the GitHub API)
become explicit parameters describing their observable outcomes, and
Python exceptions that escape a collector become `Except` errors.
-/

namespace HealthScore

/-- Boolean substring check on character lists: `strHasPfx n h` holds when
`n` is an initial segment of `h` (Python `str.startswith`, used to build
the `in` operator). -/
def strHasPfx : List Char → List Char → Bool
  | [], _ => true
  | _ :: _, [] => false
  | a :: as, b :: bs => a = b && strHasPfx as bs

/-- Python's `needle in hay` on strings, as a scan over `hay`. -/
def strContains (needle hay : List Char) : Bool :=
  match hay with
  | [] => strHasPfx needle []
  | _ :: t => strHasPfx needle hay || strContains needle t

/-- ASCII lowercasing of one character (Python `str.lower` on the ASCII
range the program compares against). -/
def lowerChar (c : Char) : Char :=
  if 65 ≤ c.toNat ∧ c.toNat ≤ 90 then Char.ofNat (c.toNat + 32) else c

/-- Python `str.lower()`. -/
def lowerStr (s : List Char) : List Char := s.map lowerChar

/-- Python `str.split(sep)` for a one-character separator: splits on every
occurrence, keeping empty pieces (`"".split("/") == [""]`). -/
def pySplit (sep : Char) : List Char → List (List Char)
  | [] => [[]]
  | a :: as =>
    match pySplit sep as with
    | [] => [[a]]
    | h :: t => if a = sep then [] :: h :: t else (a :: h) :: t

/-- Python whitespace for `str.strip()`. -/
def pySpace (c : Char) : Bool :=
  c.toNat = 32 || c.toNat = 9 || c.toNat = 10 || c.toNat = 11 || c.toNat = 12 || c.toNat = 13

/-- Python `str.strip()`: drop whitespace from both ends. -/
def pyStrip (s : List Char) : List Char :=
  ((s.dropWhile pySpace).reverse.dropWhile pySpace).reverse

/-- Python `round(x, nd)`: round half to even at `nd` decimal digits. -/
def pyRound (q : ℚ) (nd : ℕ) : ℚ :=
  let s : ℚ := q * (10 : ℚ) ^ nd
  let f : ℤ := ⌊s⌋
  let frac : ℚ := s - f
  let r : ℤ :=
    if frac < 1 / 2 then f
    else if 1 / 2 < frac then f + 1
    else if f % 2 = 0 then f else f + 1
  (r : ℚ) / (10 : ℚ) ^ nd

/-- An environment variable value is truthy in Python when it is set and
non-empty (`if not TOKEN`, `if COVERAGE_PATH`). -/
def truthy : Option String → Bool
  | none => false
  | some s => !(s == "")

/-- The fixed weight table `WEIGHTS` of `compute_score.py` (dict in
insertion order). -/
def WEIGHTS : List (String × ℚ) :=
  [("structure", 15 / 100), ("tests", 25 / 100), ("dead_code", 10 / 100),
   ("security", 20 / 100), ("docs", 15 / 100), ("ci", 15 / 100)]

/-- Model of `combine(scores)`: `total = Σ WEIGHTS[k] * scores[k][0]`, returned as
`total * 100`.  `scores` is the map from metric name to the metric value
(the first component of each collector's result). -/
def combine (scores : String → ℚ) : ℚ :=
  (WEIGHTS.foldl (fun t kv => t + kv.2 * scores kv.1) 0) * 100

/-- The `required` artifact list of `score_structure`. -/
def required : List String :=
  ["README.md", "LICENSE", ".github", "src", "setup.py", "pyproject.toml"]

/-- Model of `score_structure()`: count required artifacts present at the
repository root (`ex` is `(root / f).exists()`), value = found / 6.
Returns (value, (found_count, required)). -/
def score_structure (ex : String → Bool) : ℚ × ℕ × ℕ :=
  let found := required.countP ex
  ((found : ℚ) / (required.length : ℚ), found, required.length)

/-- Severity points accumulated by `score_security` over bandit's
`results` array: +0.5 for "low", +2.0 for "medium", +5.0 for "high",
nothing otherwise (severities compared after `.lower()`). -/
def banditPenalty (findings : List String) : ℚ :=
  findings.foldl
    (fun p sev =>
      if lowerStr sev.data = "low".data then p + 1 / 2
      else if lowerStr sev.data = "medium".data then p + 2
      else if lowerStr sev.data = "high".data then p + 5
      else p)
    0

/-- A directory entry as seen by `Path.read_text`: reading a regular file
yields its text, reading a directory raises `IsADirectoryError`. -/
inductive Entry where
  | dir (entries : List (String × String))
  | file (content : String)
deriving DecidableEq

/-- Outcome of `Path(p).read_text(...)`: `some` text for a regular file,
`none` (an exception) for a directory. -/
def readTextE : Entry → Option String
  | .file c => some c
  | .dir _ => none

/-- Model of `score_security()`.  `bandit` is the outcome of running bandit and
parsing its JSON: `some sevs` gives the `issue_severity` (possibly empty
string when absent) of each entry of `results`; `none` means the
subprocess or the JSON parse raised.  `cwd` is what the path `'.'`
denotes — in the program it is the repository root directory, and the
fallback heuristic calls `Path('.').read_text()` on it; a raised
`IsADirectoryError` is swallowed by the bare `except` and leaves the
penalty at 0.  Returns (value, penalty). -/
def score_security (bandit : Option (List String)) (cwd : Entry) : ℚ × ℚ :=
  let penalty : ℚ :=
    match bandit with
    | some findings => banditPenalty findings
    | none =>
      match readTextE cwd with
      | none => 0
      | some code =>
        if strContains "eval(".data code.data || strContains "exec(".data code.data
        then 2 else 0
  let max_penalty : ℚ := 10
  (max 0 (1 - penalty / max_penalty), penalty)

/-- Outcome of `ET.parse` on an existing candidate coverage file:
either the parse raised, or it produced a document whose root may carry a
`line-rate` attribute (`rootRate`) and which may contain a nested
`.//coverage` element carrying one (`nestedRate`). -/
inductive XmlParse where
  | err
  | doc (rootRate : Option ℚ) (nestedRate : Option ℚ)
deriving DecidableEq

/-- The candidate coverage-file paths of `score_tests`: the configured
`COVERAGE_PATH` when truthy, then `coverage.xml`, then
`htmlcov/coverage.xml`. -/
def covCandidates (covPath : Option String) : List String :=
  (if truthy covPath then [covPath.getD ""] else []) ++
    ["coverage.xml", "htmlcov/coverage.xml"]

/-- The `for p in cov_files` loop of `score_tests`.  `fs` maps a path to
`none` when `p.exists()` is false and to the parse outcome otherwise.
Result: `none` when the loop exhausted the candidates without breaking,
`some pct?` when it hit `break` with `coverage_pct = pct?` (a parse
error is swallowed by `except: pass` and the loop continues). -/
def findCoveragePct (fs : List (String × XmlParse)) : List String → Option (Option ℚ)
  | [] => none
  | p :: rest =>
    match fs.lookup p with
    | none => findCoveragePct fs rest
    | some .err => findCoveragePct fs rest
    | some (.doc rootRate nestedRate) =>
      match rootRate with
      | some rate => some (some (rate * 100))
      | none =>
        match nestedRate with
        | some rate => some (some (rate * 100))
        | none => some none

/-- Model of `score_tests()`.  `covPath` is `COVERAGE_PATH`; `fs` describes the
candidate coverage files; `testsPresent` is the `Path("tests").exists()
or any(glob...)` check; `rerun` is the outcome of the best-effort
`coverage run`/`coverage xml` fallback — `.ok rate` when it regenerated a
report whose root `line-rate` attribute reads `rate` (`"0"` default when
absent), `.error ()` when any step raised.  Returns
(value, coverage_pct-evidence). -/
def score_tests (covPath : Option String) (fs : List (String × XmlParse))
    (testsPresent : Bool) (rerun : Except Unit ℚ) : ℚ × ℚ :=
  let coverage_pct : ℚ :=
    match findCoveragePct fs (covCandidates covPath) with
    | some (some pct) => pct
    | _ =>
      if testsPresent then
        match rerun with
        | .ok rate => rate * 100
        | .error _ => 0
      else 0
  (min (max (coverage_pct / 100) 0) 1, pyRound coverage_pct 2)

/-- Model of `score_dead_code()`.  `vulture` is the outcome of the
`subprocess.check_output(["vulture", ...])` call plus decode: `some out`
gives the output lines, `none` means it raised (tool unavailable or
failed).  `pyLines` gives, per globbed `*.py` file, `some n` for a file
read as `n` lines and `none` for a file whose open raised (the inner
`except` adds nothing for it).  Returns (value, dead_ratio-evidence). -/
def score_dead_code (vulture : Option (List String)) (pyLines : List (Option ℕ)) : ℚ × ℚ :=
  let dead_ratio : ℚ :=
    match vulture with
    | none => 0
    | some out =>
      let flagged := out.countP (fun l => !(pyStrip l.data).isEmpty && strContains ":".data l.data)
      let total_lines := (pyLines.map (fun o => o.getD 0)).sum
      min ((flagged * 10 : ℚ) / max (total_lines : ℚ) 1) 1
  (1 - dead_ratio, pyRound dead_ratio 3)

/-- The four README sections checked by `score_docs`. -/
def docSections : List String := ["installation", "usage", "license", "contributing"]

/-- The triple-single-quote delimiter (three U+0027 characters). -/
def tripleSq : List Char := List.replicate 3 (Char.ofNat 39)

/-- Does a source file's first 200 characters contain a docstring
delimiter (`'''` or the double-quoted style)? -/
def hasDocstring (content : String) : Bool :=
  strContains "\"\"\"".data (content.data.take 200) ||
    strContains tripleSq (content.data.take 200)

/-- The docstring generator of `score_docs`, reading each globbed `*.py`
file in order: `some text` means `open(...)` succeeded, `none` means it
raised — the read is not guarded by any `try`, so the exception escapes
(`Except.error`). -/
def readDocFlags : List (Option String) → Except Unit (List Bool)
  | [] => .ok []
  | none :: _ => .error ()
  | some content :: rest =>
    (readDocFlags rest).map (fun r => hasDocstring content :: r)

/-- The `details` map of `score_docs`: for each expected section, whether
it occurs as a substring of the lowercased README text. -/
def readmeSections (text : String) : List (String × Bool) :=
  docSections.map (fun (item : String) => (item, strContains item.data (lowerStr text.data)))

/-- The README sub-score of `score_docs`: the section loop increments
`score` once per present section, then divides by 4; the score is 0 when
`README.md` does not exist. -/
def readmeScore : Option String → ℚ
  | some text => (((readmeSections text).countP (fun (e : String × Bool) => e.2) : ℕ) : ℚ) / 4
  | none => 0

/-- The `details` evidence of `score_docs` (empty when `README.md` does
not exist). -/
def readmeDetails : Option String → List (String × Bool)
  | some text => readmeSections text
  | none => []

/-- Model of `score_docs()`.  `readme` is the text of `README.md` when it exists;
`pyFiles` gives the outcome of opening each globbed `*.py` file.
Returns (value, (section-presence map, doc_ratio-evidence)). -/
def score_docs (readme : Option String) (pyFiles : List (Option String)) :
    Except Unit (ℚ × List (String × Bool) × ℚ) :=
  let score := readmeScore readme
  let details := readmeDetails readme
  let ratioE : Except Unit ℚ :=
    if pyFiles.isEmpty then .ok 0
    else (readDocFlags pyFiles).map
      (fun reads => ((reads.countP (fun b => b) : ℕ) : ℚ) / (pyFiles.length : ℚ))
  ratioE.map (fun doc_ratio =>
    (6 / 10 * score + 4 / 10 * doc_ratio, details, pyRound doc_ratio 2))

/-- The body of the GitHub API response as `score_ci` consumes it:
`workflowRuns` is `some runs` when the JSON object has a
`workflow_runs` key (each run's `conclusion` field, `none` when absent)
and `none` when the key is missing (`data.get` defaults to `[]`). -/
structure CiData where
  workflowRuns : Option (List (Option String))
deriving DecidableEq

/-- Evidence dictionaries that `score_ci` can attach. -/
inductive CiEvidence where
  | note (s : String)
  | requestError (s : String)
  | totalRuns (n : ℕ)
  | stats (total success : ℕ)
deriving DecidableEq

/-- Model of `score_ci()`.  `token`/`repo` are `GITHUB_TOKEN`/`GITHUB_REPOSITORY`;
`net` is the outcome of the guarded `requests.get` + `r.json()` call
(`.error msg` when anything inside the `try` raised).  The
`owner, repo = REPO.split("/")` unpack happens before the `try`: when the
split does not yield exactly two parts it raises a `ValueError` that
escapes the collector (`Except.error`). -/
def score_ci (token repo : Option String) (net : Except String CiData) :
    Except String (ℚ × CiEvidence) :=
  if !truthy token || !truthy repo then
    .ok (0, .note "no token/repo")
  else
    match pySplit '/' (repo.getD "").data with
    | [_, _] =>
      match net with
      | .error e => .ok (0, .requestError e)
      | .ok data =>
        let runs := data.workflowRuns.getD []
        if runs.isEmpty then .ok (0, .totalRuns 0)
        else
          let total := runs.length
          let success := runs.countP (fun r => r = some "success")
          .ok ((success : ℚ) / (total : ℚ), .stats total success)
    | _ => .error "ValueError: unpack of REPO.split"

/-! ### Helper lemmas -/

/-- The weighted sum of `combine`, unfolded over the six metrics. -/
theorem combine_eq (scores : String → ℚ) :
    combine scores =
      (15 / 100 * scores "structure" + 25 / 100 * scores "tests" +
        10 / 100 * scores "dead_code" + 20 / 100 * scores "security" +
        15 / 100 * scores "docs" + 15 / 100 * scores "ci") * 100 := by
  simp [combine, WEIGHTS]

set_option linter.unusedTactic false in
/-- Accumulator-generalized form of the severity-point fold of
`score_security`: the fold is the start value plus the severity counts
weighted 0.5/2/5. -/
theorem banditPenalty_fold (findings : List String) (p : ℚ) :
    findings.foldl
        (fun p sev =>
          if lowerStr sev.data = "low".data then p + 1 / 2
          else if lowerStr sev.data = "medium".data then p + 2
          else if lowerStr sev.data = "high".data then p + 5
          else p)
        p
      = p + (findings.countP (fun s => lowerStr s.data = "low".data) : ℚ) * (1 / 2) +
          (findings.countP (fun s => lowerStr s.data = "medium".data) : ℚ) * 2 +
          (findings.countP (fun s => lowerStr s.data = "high".data) : ℚ) * 5 := by
  induction findings generalizing p with
  | nil => simp
  | cons a as ih =>
    simp only [List.foldl_cons, List.countP_cons]
    rw [ih]
    by_cases h1 : lowerStr a.data = "low".data <;>
      by_cases h2 : lowerStr a.data = "medium".data <;>
      by_cases h3 : lowerStr a.data = "high".data <;>
      simp [h1, h2, h3] <;> push_cast <;> ring

/-- The severity-point total is the severity counts weighted 0.5/2/5. -/
theorem banditPenalty_counts (findings : List String) :
    banditPenalty findings =
      (findings.countP (fun s => lowerStr s.data = "low".data) : ℚ) * (1 / 2) +
        (findings.countP (fun s => lowerStr s.data = "medium".data) : ℚ) * 2 +
        (findings.countP (fun s => lowerStr s.data = "high".data) : ℚ) * 5 := by
  have h := banditPenalty_fold findings 0
  simpa [banditPenalty] using h

/-- Severity points are never negative. -/
theorem banditPenalty_nonneg (findings : List String) : 0 ≤ banditPenalty findings := by
  rw [banditPenalty_counts]
  positivity

/-- The penalty of `score_security` is never negative, whatever the
scanner outcome and the repository contents. -/
theorem score_security_penalty_nonneg (bandit : Option (List String)) (cwd : Entry) :
    0 ≤ (score_security bandit cwd).2 := by
  rcases bandit with _ | findings
  · rcases cwd with entries | content
    · simp [score_security, readTextE]
    · simp only [score_security, readTextE]
      split <;> norm_num
  · simpa [score_security] using banditPenalty_nonneg findings

/-- Reading the docstring flags succeeds with one flag per file. -/
theorem readDocFlags_length {l : List (Option String)} {r : List Bool}
    (h : readDocFlags l = .ok r) : r.length = l.length := by
  induction l generalizing r with
  | nil =>
    simp only [readDocFlags] at h
    cases h
    rfl
  | cons a as ih =>
    cases a with
    | none => simp [readDocFlags] at h
    | some c =>
      simp only [readDocFlags] at h
      cases hr : readDocFlags as with
      | error e => rw [hr] at h; simp [Except.map] at h
      | ok rs =>
        rw [hr] at h
        simp only [Except.map] at h
        cases h
        simp [ih hr]

/-- The README sub-score is in [0,1]. -/
theorem readmeScore_bounds (readme : Option String) :
    0 ≤ readmeScore readme ∧ readmeScore readme ≤ 1 := by
  rcases readme with _ | text
  · simp [readmeScore]
  · simp only [readmeScore]
    constructor
    · positivity
    · rw [div_le_one (by norm_num)]
      have hc := List.countP_le_length
        (p := fun (e : String × Bool) => e.2) (l := readmeSections text)
      have hlen : (readmeSections text).length = 4 := by
        simp [readmeSections, docSections]
      rw [hlen] at hc
      exact_mod_cast hc

/-- Whenever `score_docs` returns, its value is in [0,1]. -/
theorem score_docs_value_bounds (readme : Option String) (pyFiles : List (Option String))
    (v : ℚ) (ev : List (String × Bool) × ℚ)
    (h : score_docs readme pyFiles = .ok (v, ev)) : 0 ≤ v ∧ v ≤ 1 := by
  obtain ⟨hs0, hs1⟩ := readmeScore_bounds readme
  simp only [score_docs] at h
  by_cases hemp : pyFiles.isEmpty
  · simp only [hemp, if_true, Except.map] at h
    cases h
    constructor <;> nlinarith
  · simp only [hemp, if_false, Bool.false_eq_true] at h
    cases hr : readDocFlags pyFiles with
    | error e => rw [hr] at h; simp [Except.map] at h
    | ok reads =>
      rw [hr] at h
      simp only [Except.map] at h
      cases h
      have hlen : pyFiles.length ≠ 0 := by
        simpa [List.isEmpty_iff_length_eq_zero] using hemp
      have hratio0 : (0 : ℚ) ≤ ((reads.countP (fun b => b) : ℕ) : ℚ) / (pyFiles.length : ℚ) := by
        positivity
      have hratio1 : ((reads.countP (fun b => b) : ℕ) : ℚ) / (pyFiles.length : ℚ) ≤ 1 := by
        rw [div_le_one (by exact_mod_cast Nat.pos_of_ne_zero hlen)]
        have hc : reads.countP (fun b => b) ≤ pyFiles.length := by
          calc reads.countP (fun b => b) ≤ reads.length := List.countP_le_length _
            _ = pyFiles.length := readDocFlags_length hr
        exact_mod_cast hc
      constructor <;> nlinarith

/-- Whenever `score_ci` returns, its value is in [0,1]. -/
theorem score_ci_value_bounds (token repo : Option String) (net : Except String CiData)
    (v : ℚ) (ev : CiEvidence) (h : score_ci token repo net = .ok (v, ev)) :
    0 ≤ v ∧ v ≤ 1 := by
  unfold score_ci at h
  split at h
  · cases h; norm_num
  · split at h
    · split at h
      · cases h; norm_num
      · rename_i data
        dsimp only at h
        split at h
        · cases h; norm_num
        · rename_i hne
          cases h
          have hlen : (data.workflowRuns.getD []).length ≠ 0 := by
            simpa [List.isEmpty_iff_length_eq_zero] using hne
          have hpos : (0 : ℚ) < ((data.workflowRuns.getD []).length : ℚ) :=
            Nat.cast_pos.mpr (Nat.pos_of_ne_zero hlen)
          constructor
          · exact div_nonneg (by positivity) (le_of_lt hpos)
          · rw [div_le_one hpos]
            exact_mod_cast List.countP_le_length _
    · cases h

/-! ### C1 — the aggregator stays in [0,100] -/

/-- C1: with the fixed weight table (structure 0.15, tests 0.25,
dead_code 0.10, security 0.20, docs 0.15, ci 0.15), whose weights sum to
1, any assignment of metric values in [0,1] gives
`final_score = 100 × Σ weight_i × value_i` in [0,100]. -/
theorem combine_in_range (scores : String → ℚ)
    (h : ∀ k, 0 ≤ scores k ∧ scores k ≤ 1) :
    (WEIGHTS.map Prod.snd).sum = 1 ∧
      0 ≤ combine scores ∧ combine scores ≤ 100 := by
  refine ⟨by norm_num [WEIGHTS], ?_, ?_⟩ <;>
    rw [combine_eq] <;>
    obtain ⟨h1l, h1r⟩ := h "structure" <;>
    obtain ⟨h2l, h2r⟩ := h "tests" <;>
    obtain ⟨h3l, h3r⟩ := h "dead_code" <;>
    obtain ⟨h4l, h4r⟩ := h "security" <;>
    obtain ⟨h5l, h5r⟩ := h "docs" <;>
    obtain ⟨h6l, h6r⟩ := h "ci" <;>
    nlinarith

/-- Witness for C1: the all-one-half assignment scores 50. -/
theorem combine_in_range_witness :
    (WEIGHTS.map Prod.snd).sum = 1 ∧
      0 ≤ combine (fun _ => 1 / 2) ∧ combine (fun _ => 1 / 2) ≤ 100 :=
  combine_in_range (fun _ => 1 / 2) (fun _ => by norm_num)

/-! ### C2 — every collector value is clamped to [0,1] -/

/-- C2: for every repository state and every outcome of the external
tools (coverage percentages, dead-code findings, security penalties, CI
run lists), each of the six collectors yields a value in [0,1] whenever
it returns, even when the raw signal exceeds that range before
clamping. -/
theorem collectors_value_in_unit_interval :
    (∀ ex, 0 ≤ (score_structure ex).1 ∧ (score_structure ex).1 ≤ 1) ∧
    (∀ covPath fs testsPresent rerun,
      0 ≤ (score_tests covPath fs testsPresent rerun).1 ∧
        (score_tests covPath fs testsPresent rerun).1 ≤ 1) ∧
    (∀ vulture pyLines,
      0 ≤ (score_dead_code vulture pyLines).1 ∧ (score_dead_code vulture pyLines).1 ≤ 1) ∧
    (∀ bandit cwd,
      0 ≤ (score_security bandit cwd).1 ∧ (score_security bandit cwd).1 ≤ 1) ∧
    (∀ readme pyFiles v ev, score_docs readme pyFiles = .ok (v, ev) → 0 ≤ v ∧ v ≤ 1) ∧
    (∀ token repo net v ev, score_ci token repo net = .ok (v, ev) → 0 ≤ v ∧ v ≤ 1) := by
  refine ⟨?_, ?_, ?_, ?_, score_docs_value_bounds, score_ci_value_bounds⟩
  · intro ex
    simp only [score_structure]
    constructor
    · positivity
    · rw [div_le_one (by norm_num [required])]
      have hc := List.countP_le_length (p := ex) (l := required)
      exact_mod_cast hc
  · intro covPath fs testsPresent rerun
    exact ⟨le_min (le_max_right _ _) zero_le_one, min_le_right _ _⟩
  · intro vulture pyLines
    rcases vulture with _ | out
    · simp [score_dead_code]
    · simp only [score_dead_code]
      set q : ℚ :=
        ((out.countP (fun l => !(pyStrip l.data).isEmpty && strContains ":".data l.data) * 10 : ℕ) : ℚ) /
          max (((pyLines.map (fun o => o.getD 0)).sum : ℕ) : ℚ) 1 with hq
      have hq0 : 0 ≤ q := by
        rw [hq]
        apply div_nonneg (by positivity)
        exact le_trans zero_le_one (le_max_right _ 1)
      constructor
      · have := min_le_right q 1
        simp only [hq] at this ⊢
        push_cast at this ⊢
        linarith
      · have := le_min hq0 (zero_le_one (α := ℚ))
        simp only [hq] at this ⊢
        push_cast at this ⊢
        linarith
  · intro bandit cwd
    have hp := score_security_penalty_nonneg bandit cwd
    have hval : (score_security bandit cwd).1 =
        max 0 (1 - (score_security bandit cwd).2 / 10) := rfl
    rw [hval]
    constructor
    · exact le_max_left _ _
    · apply max_le (by norm_num)
      have : 0 ≤ (score_security bandit cwd).2 / 10 := by positivity
      linarith

/-- Witness for C2: concrete runs of all six collectors, with raw signals
beyond the clamped range (300% coverage, flood of dead-code findings,
penalty 15), stay in [0,1]. -/
theorem collectors_value_in_unit_interval_witness :
    (0 ≤ (score_structure (fun _ => true)).1 ∧ (score_structure (fun _ => true)).1 ≤ 1) ∧
    (0 ≤ (score_tests none [("coverage.xml", .doc (some 3) none)] false (.error ())).1 ∧
      (score_tests none [("coverage.xml", .doc (some 3) none)] false (.error ())).1 ≤ 1) ∧
    (0 ≤ (score_dead_code (some ["a.py:1: dead", "a.py:2: dead"]) [some 3]).1 ∧
      (score_dead_code (some ["a.py:1: dead", "a.py:2: dead"]) [some 3]).1 ≤ 1) ∧
    (0 ≤ (score_security (some ["high", "high", "high"]) (.dir [])).1 ∧
      (score_security (some ["high", "high", "high"]) (.dir [])).1 ≤ 1) ∧
    (0 ≤ (1 / 2 : ℚ) ∧ (1 / 2 : ℚ) ≤ 1) ∧
    (0 ≤ (1 : ℚ) ∧ (1 : ℚ) ≤ 1) := by
  refine ⟨collectors_value_in_unit_interval.1 _,
    collectors_value_in_unit_interval.2.1 _ _ _ _,
    collectors_value_in_unit_interval.2.2.1 _ _,
    collectors_value_in_unit_interval.2.2.2.1 _ _,
    collectors_value_in_unit_interval.2.2.2.2.1
      (some "Installation and LICENSE here") [some "\"\"\"doc\"\"\"", some "x = 1"] (1 / 2)
      ([("installation", true), ("usage", false), ("license", true), ("contributing", false)],
        1 / 2) ?_,
    collectors_value_in_unit_interval.2.2.2.2.2
      (some "t") (some "o/r") (.ok ⟨some [some "success"]⟩) 1 (.stats 1 1) ?_⟩
  · norm_num +decide [score_docs, readmeScore, readmeDetails, readmeSections, docSections,
      readDocFlags, hasDocstring, pyRound, lowerStr, lowerChar, Except.map]
  · norm_num +decide [score_ci, truthy, pySplit]

/-! ### C3 — scanner-backed security scoring -/

/-- C3: with the scanner available, the security collector accumulates
+0.5 per low, +2.0 per medium and +5.0 per high finding and returns
`max 0 (1 − penalty/10)`; findings [low, low, high] give penalty 6 and
value 0.4, and any penalty of 10 or more (in particular above 10) gives
value 0, never negative. -/
theorem score_security_scanner_penalty (findings : List String) (cwd : Entry) :
    (score_security (some findings) cwd).2 =
        (findings.countP (fun s => lowerStr s.data = "low".data) : ℚ) * (1 / 2) +
          (findings.countP (fun s => lowerStr s.data = "medium".data) : ℚ) * 2 +
          (findings.countP (fun s => lowerStr s.data = "high".data) : ℚ) * 5 ∧
    (score_security (some findings) cwd).1 =
        max 0 (1 - (score_security (some findings) cwd).2 / 10) ∧
    0 ≤ (score_security (some findings) cwd).1 ∧
    (10 ≤ (score_security (some findings) cwd).2 → (score_security (some findings) cwd).1 = 0) ∧
    score_security (some ["low", "low", "high"]) cwd = (2 / 5, 6) := by
  refine ⟨?_, rfl, le_max_left _ _, ?_, ?_⟩
  · simpa [score_security] using banditPenalty_counts findings
  · intro h10
    have hval : (score_security (some findings) cwd).1 =
        max 0 (1 - (score_security (some findings) cwd).2 / 10) := rfl
    rw [hval, max_eq_left]
    linarith
  · norm_num +decide [score_security, banditPenalty]

/-- Witness for C3: three high findings (penalty 15, above the ceiling)
give value 0, and [low, low, high] gives (0.4, 6). -/
theorem score_security_scanner_penalty_witness :
    (score_security (some ["high", "high", "high"]) (.dir [])).1 = 0 ∧
    score_security (some ["low", "low", "high"]) (.dir []) = (2 / 5, 6) :=
  ⟨(score_security_scanner_penalty ["high", "high", "high"] (.dir [])).2.2.2.1
      (by norm_num +decide [score_security, banditPenalty]),
    (score_security_scanner_penalty [] (.dir [])).2.2.2.2⟩

/-! ### C4 — the scanner-unavailable fallback never fires (code bug) -/

/-- C4 (code bug): the fallback heuristic calls `Path('.').read_text()`,
and `'.'` is the repository root directory, so the read always raises
`IsADirectoryError`, the bare `except` swallows it, and the penalty stays
0 — for every repository tree, whatever its files contain.  In
particular, with no scanner and a source file containing "eval(", the
collector returns (1.0, penalty 0), not the (0.8, penalty 2.0) the claim
requires. -/
theorem score_security_fallback_never_fires :
    (∀ entries, score_security none (.dir entries) = (1, 0)) ∧
    score_security none (.dir [("main.py", "x = eval(input())")]) = (1, 0) ∧
    ¬((1 : ℚ) = 8 / 10 ∧ (0 : ℚ) = 2) := by
  refine ⟨?_, ?_, by norm_num⟩
  · intro entries
    norm_num [score_security, readTextE]
  · norm_num [score_security, readTextE]

/-! ### C5 — the CI collector and malformed repository identities -/

/-- Counterexample to C5 as stated: with a credential present and the
repository identity "foo" (no slash), `owner, repo = REPO.split("/")`
raises a ValueError before the `try` block — the collector does not
return 0.0 with evidence. -/
theorem score_ci_raises_on_malformed_repo :
    score_ci (some "t") (some "foo") (.ok ⟨some []⟩) =
      .error "ValueError: unpack of REPO.split" := by
  norm_num +decide [score_ci, truthy, pySplit]

/-- C5 (amended): for every environment whose repository identity, when
set and non-empty, splits on "/" into exactly two parts, the CI collector
never raises: a missing credential or identity returns 0.0 with a note,
and a failed request returns 0.0 with the error as evidence. -/
theorem score_ci_never_raises (token repo : Option String) (net : Except String CiData)
    (hrepo : truthy repo = true → (pySplit '/' (repo.getD "").data).length = 2) :
    (∃ p, score_ci token repo net = .ok p) ∧
    (truthy token = false ∨ truthy repo = false →
      score_ci token repo net = .ok (0, .note "no token/repo")) ∧
    (∀ e, truthy token = true → truthy repo = true → net = .error e →
      score_ci token repo net = .ok (0, .requestError e)) := by
  by_cases htok : truthy token = true
  · by_cases hrep : truthy repo = true
    · obtain ⟨a, l2⟩ : ∃ a l, pySplit '/' (repo.getD "").data = [a, l] := by
        have hl := hrepo hrep
        match hsp : pySplit '/' (repo.getD "").data with
        | [a, b] => exact ⟨a, b, rfl⟩
        | [] => rw [hsp] at hl; simp at hl
        | [a] => rw [hsp] at hl; simp at hl
        | a :: b :: c :: t => rw [hsp] at hl; simp at hl
      obtain ⟨b, hsp⟩ := l2
      have hout : ∀ nn, ∃ p, score_ci token repo nn = .ok p := by
        intro nn
        simp only [score_ci, htok, hrep, Bool.not_true, Bool.or_self, hsp]
        cases nn with
        | error e => exact ⟨_, rfl⟩
        | ok data =>
          dsimp only
          by_cases hemp : (data.workflowRuns.getD []).isEmpty = true
          · exact ⟨_, by rw [if_pos hemp]; rfl⟩
          · exact ⟨_, by rw [if_neg hemp]; rfl⟩
      refine ⟨hout net, ?_, ?_⟩
      · intro hfalse
        rcases hfalse with hf | hf
        · rw [htok] at hf; cases hf
        · rw [hrep] at hf; cases hf
      · intro e _ _ hnet
        subst hnet
        simp [score_ci, htok, hrep, hsp]
    · have hr : truthy repo = false := by simpa using hrep
      have hh : score_ci token repo net = .ok (0, .note "no token/repo") := by
        simp [score_ci, hr]
      exact ⟨⟨_, hh⟩, fun _ => hh, fun e _ hrep2 _ => by rw [hr] at hrep2; cases hrep2⟩
  · have ht : truthy token = false := by simpa using htok
    have hh : score_ci token repo net = .ok (0, .note "no token/repo") := by
      simp [score_ci, ht]
    exact ⟨⟨_, hh⟩, fun _ => hh, fun e htok2 _ _ => by rw [ht] at htok2; cases htok2⟩

/-- Witness for C5 (amended): a well-formed "o/r" identity with a failed
request returns 0.0 with the error noted; a missing credential returns
0.0 with a note. -/
theorem score_ci_never_raises_witness :
    score_ci (some "t") (some "o/r") (.error "timeout") = .ok (0, .requestError "timeout") ∧
    score_ci none (some "o/r") (.ok ⟨some []⟩) = .ok (0, .note "no token/repo") :=
  ⟨(score_ci_never_raises (some "t") (some "o/r") (.error "timeout")
      (fun _ => by decide)).2.2 "timeout" (by decide) (by decide) rfl,
    (score_ci_never_raises none (some "o/r") (.ok ⟨some []⟩)
      (fun _ => by decide)).2.1 (Or.inl (by decide))⟩

/-! ### C6 — the tests collector on a report with a root line-rate -/

/-- Candidate paths that do not exist are skipped by the coverage loop. -/
theorem findCoveragePct_skip_missing (fs : List (String × XmlParse)) (pre : List String)
    (tail : List String) (hpre : ∀ q ∈ pre, fs.lookup q = none) :
    findCoveragePct fs (pre ++ tail) = findCoveragePct fs tail := by
  induction pre with
  | nil => rfl
  | cons a as ih =>
    have ha : fs.lookup a = none := hpre a (by simp)
    rw [List.cons_append]
    show (match fs.lookup a with
      | none => findCoveragePct fs (as ++ tail)
      | some .err => findCoveragePct fs (as ++ tail)
      | some (.doc rootRate nestedRate) =>
        match rootRate with
        | some rate => some (some (rate * 100))
        | none =>
          match nestedRate with
          | some rate => some (some (rate * 100))
          | none => some none) = findCoveragePct fs tail
    rw [ha]
    exact ih (fun q hq => hpre q (by simp [hq]))

/-- C6: when the first existing candidate coverage report (configured
path first, then the conventional paths) parses with a `line-rate` of `r`
on its root element, the tests collector returns value
`min (max r 0) 1` and evidence `coverage_pct = round(r × 100, 2)`. -/
theorem score_tests_root_line_rate (covPath : Option String) (fs : List (String × XmlParse))
    (pre : List String) (p : String) (rest : List String) (r : ℚ) (nested : Option ℚ)
    (testsPresent : Bool) (rerun : Except Unit ℚ)
    (hsplit : covCandidates covPath = pre ++ p :: rest)
    (hpre : ∀ q ∈ pre, fs.lookup q = none)
    (hp : fs.lookup p = some (.doc (some r) nested)) :
    score_tests covPath fs testsPresent rerun = (min (max r 0) 1, pyRound (r * 100) 2) := by
  have hfind : findCoveragePct fs (covCandidates covPath) = some (some (r * 100)) := by
    rw [hsplit, findCoveragePct_skip_missing fs pre (p :: rest) hpre]
    show (match fs.lookup p with
      | none => findCoveragePct fs rest
      | some .err => findCoveragePct fs rest
      | some (.doc rootRate nestedRate) =>
        match rootRate with
        | some rate => some (some (rate * 100))
        | none =>
          match nestedRate with
          | some rate => some (some (rate * 100))
          | none => some none) = some (some (r * 100))
    rw [hp]
  simp only [score_tests, hfind]
  have h100 : r * 100 / 100 = r := by
    rw [mul_div_assoc]
    norm_num
  rw [h100]

/-- Witness for C6: a root `line-rate="0.87"` in `coverage.xml` gives
value 0.87 and coverage_pct 87. -/
theorem score_tests_root_line_rate_witness :
    score_tests none [("coverage.xml", .doc (some (87 / 100)) none)] false (.error ()) =
      (87 / 100, 87) := by
  have h := score_tests_root_line_rate none [("coverage.xml", .doc (some (87 / 100)) none)]
    [] "coverage.xml" ["htmlcov/coverage.xml"] (87 / 100) none false (.error ())
    rfl (by simp) rfl
  rw [h]
  norm_num [pyRound]

/-! ### C7 — the docs collector's weighted formula -/

/-- Reading all-readable files yields one docstring flag per file. -/
theorem readDocFlags_map_some (contents : List String) :
    readDocFlags (contents.map some) = .ok (contents.map hasDocstring) := by
  induction contents with
  | nil => rfl
  | cons c cs ih => simp [readDocFlags, ih, Except.map]

/-- C7: with all source files readable and at least one present, the
docs collector's value is 0.6 × (fraction of the four sections found
case-insensitively in the README, 0 when it is absent) + 0.4 × (fraction
of source files whose first 200 characters contain a docstring
delimiter); the evidence records the per-section map and the rounded
ratio. -/
theorem score_docs_weighted_formula (readme : Option String) (contents : List String)
    (hne : contents ≠ []) :
    score_docs readme (contents.map some) =
      .ok (6 / 10 * (match readme with
            | some text =>
              ((docSections.countP (fun item => strContains item.data (lowerStr text.data)) : ℕ) : ℚ) / 4
            | none => 0) +
          4 / 10 * (((contents.countP hasDocstring : ℕ) : ℚ) / ((contents.length : ℕ) : ℚ)),
        readmeDetails readme,
        pyRound (((contents.countP hasDocstring : ℕ) : ℚ) / ((contents.length : ℕ) : ℚ)) 2) := by
  have hemp : (contents.map some).isEmpty = false := by
    cases contents with
    | nil => exact absurd rfl hne
    | cons a as => rfl
  have hcount : (contents.map hasDocstring).countP (fun b => b) = contents.countP hasDocstring := by
    rw [List.countP_map]
    rfl
  simp only [score_docs, hemp, Bool.false_eq_true, if_false, readDocFlags_map_some,
    Except.map, hcount, List.length_map]
  rcases readme with _ | text
  · simp [readmeScore]
  · simp only [readmeScore, readmeSections, List.countP_map]
    rfl

/-- Witness for C7: README containing "installation" and "license" only
(2 of 4 sections) and docstring ratio 1/2 give value 0.5. -/
theorem score_docs_weighted_formula_witness :
    score_docs (some "Installation and LICENSE here") (["\"\"\"doc\"\"\"", "x = 1"].map some) =
      .ok (1 / 2,
        [("installation", true), ("usage", false), ("license", true), ("contributing", false)],
        1 / 2) := by
  have h := score_docs_weighted_formula (some "Installation and LICENSE here")
    ["\"\"\"doc\"\"\"", "x = 1"] (by simp)
  rw [h]
  norm_num +decide [docSections, hasDocstring, pyRound, lowerStr, lowerChar,
    readmeDetails, readmeSections]

/-! ### C8 — an unreadable source file crashes the docs collector (code bug) -/

/-- The docstring generator raises at the first unreadable file. -/
theorem readDocFlags_error (pre : List String) (rest : List (Option String)) :
    readDocFlags (pre.map some ++ none :: rest) = .error () := by
  induction pre with
  | nil => rfl
  | cons a as ih => simp [readDocFlags, ih, Except.map]

/-- C8 (code bug): the docstring reads of `score_docs` are not guarded by
any `try`, so a source file whose `open` raises (e.g. unreadable
permissions) makes the whole collector raise instead of being treated as
"no docstring" — for every README state and every mix of readable files
around it. -/
theorem score_docs_raises_on_unreadable_file (readme : Option String)
    (pre : List String) (rest : List (Option String)) :
    score_docs readme (pre.map some ++ none :: rest) = .error () := by
  have hemp : (pre.map some ++ none :: rest).isEmpty = false := by
    cases pre <;> rfl
  simp only [score_docs, hemp, Bool.false_eq_true, if_false, readDocFlags_error, Except.map]

/-! ### C9 — the dead-code heuristic -/

/-- C9: with the detector available, flagged findings `f` and a positive
total line count `n` give `dead_ratio = min (f × 10 / n) 1` and value
`1 − dead_ratio`; with the detector unavailable or failing, the ratio is
0 and the value 1. -/
theorem score_dead_code_heuristic :
    (∀ out pyLines, 0 < (pyLines.map (fun (o : Option ℕ) => o.getD 0)).sum →
      score_dead_code (some out) pyLines =
        (1 - min (((out.countP (fun l => !(pyStrip l.data).isEmpty && strContains ":".data l.data) * 10 : ℕ) : ℚ) /
            (((pyLines.map (fun (o : Option ℕ) => o.getD 0)).sum : ℕ) : ℚ)) 1,
          pyRound (min (((out.countP (fun l => !(pyStrip l.data).isEmpty && strContains ":".data l.data) * 10 : ℕ) : ℚ) /
            (((pyLines.map (fun (o : Option ℕ) => o.getD 0)).sum : ℕ) : ℚ)) 1) 3)) ∧
    (∀ pyLines, score_dead_code none pyLines = (1, 0)) := by
  constructor
  · intro out pyLines hpos
    have hmax : max (((pyLines.map (fun (o : Option ℕ) => o.getD 0)).sum : ℕ) : ℚ) 1 =
        (((pyLines.map (fun (o : Option ℕ) => o.getD 0)).sum : ℕ) : ℚ) := by
      apply max_eq_left
      exact_mod_cast hpos
    simp only [score_dead_code, hmax]
    push_cast
    rfl
  · intro pyLines
    norm_num [score_dead_code, pyRound]

/-- Witness for C9: two findings over 100 total lines give dead_ratio
2 × 10 / 100 = 0.2 and value 0.8. -/
theorem score_dead_code_heuristic_witness :
    score_dead_code (some ["a.py:1: unused", "b.py:2: unused"]) [some 100] = (4 / 5, 1 / 5) := by
  have h := score_dead_code_heuristic.1 ["a.py:1: unused", "b.py:2: unused"] [some 100]
    (by norm_num)
  rw [h]
  norm_num +decide [pyStrip, pyRound]

/-! ### C10 — empty CI run list -/

/-- C10: when the request succeeds but the run list is empty, the CI
collector returns 0.0 with evidence total_runs = 0 instead of dividing
by zero; the success/total division happens only on a non-empty list. -/
theorem score_ci_empty_runs (token repo : Option String) (data : CiData)
    (htok : truthy token = true) (hrep : truthy repo = true)
    (hsplit : (pySplit '/' (repo.getD "").data).length = 2)
    (hruns : data.workflowRuns.getD [] = []) :
    score_ci token repo (.ok data) = .ok (0, .totalRuns 0) := by
  obtain ⟨a, b, hsp⟩ : ∃ a b, pySplit '/' (repo.getD "").data = [a, b] := by
    match hx : pySplit '/' (repo.getD "").data with
    | [a, b] => exact ⟨a, b, rfl⟩
    | [] => rw [hx] at hsplit; simp at hsplit
    | [a] => rw [hx] at hsplit; simp at hsplit
    | a :: b :: c :: t => rw [hx] at hsplit; simp at hsplit
  simp [score_ci, htok, hrep, hsp, hruns]

/-- Witness for C10: a successful response whose `workflow_runs` is empty
gives 0.0 with total_runs 0. -/
theorem score_ci_empty_runs_witness :
    score_ci (some "t") (some "o/r") (.ok ⟨some []⟩) = .ok (0, .totalRuns 0) :=
  score_ci_empty_runs (some "t") (some "o/r") ⟨some []⟩
    (by decide) (by decide) (by decide) rfl

end HealthScore
